import Mathlib

/-!
Verification of the `amazon_advertising_api` Python client
(`src/amazon_advertising_api/advertising_api.py`) against its
natural-language specification.

The client is shallowly embedded: Python dictionaries and JSON documents
become the inductive `JVal`; the mutable `AdvertisingApi` object becomes the
record `ApiState` threaded explicitly; Python exceptions become the `Except
PyError` result channel (state mutations made before a raise persist, so every
operation returns its final state alongside the result); the HTTP transport
becomes an oracle `Env` assigning a response to the n-th request issued, and
every operation also returns the list of HTTP requests it issued, so that
claims about how many requests are sent and with which headers, URLs and
bodies can be stated.

Wire convention: the oracle delivers a response body as the JSON value
`JVal`; the raw text the socket would carry is its serialization `jdump`
(Python `json.dumps`), and `json.loads` of that text is the value itself.
-/

/-- JSON values / Python objects travelling through the client
(strings, ints, bools, `None`, lists, dicts). Floats never occur in the
data belonging to the client itself and are not modelled. -/
inductive JVal where
  | jstr (s : String)
  | jnum (n : Int)
  | jbool (b : Bool)
  | jnull
  | jarr (elems : List JVal)
  | jobj (fields : List (String × JVal))

mutual
/-- Python `==` on JSON values (structural equality). -/
def jeq : JVal → JVal → Bool
  | .jstr a, .jstr b => a == b
  | .jnum a, .jnum b => a == b
  | .jbool a, .jbool b => a == b
  | .jnull, .jnull => true
  | .jarr xs, .jarr ys => jeqArr xs ys
  | .jobj xs, .jobj ys => jeqObj xs ys
  | _, _ => false

def jeqArr : List JVal → List JVal → Bool
  | [], [] => true
  | x :: xs, y :: ys => jeq x y && jeqArr xs ys
  | _, _ => false

def jeqObj : List (String × JVal) → List (String × JVal) → Bool
  | [], [] => true
  | (k1, v1) :: xs, (k2, v2) :: ys => k1 == k2 && jeq v1 v2 && jeqObj xs ys
  | _, _ => false
end

/-- Python type name of a value, used in `TypeError` messages. -/
def pyTypeName : JVal → String
  | .jstr _ => "str"
  | .jnum _ => "int"
  | .jbool _ => "bool"
  | .jnull => "NoneType"
  | .jarr _ => "list"
  | .jobj _ => "dict"

/-- Python exceptions that the client code can raise.  (Python quotes
identifiers in these messages; the quotes are omitted here.) -/
inductive PyError where
  | typeError (msg : String)
  | keyError (key : String)
  | valueError (msg : String)
  | unboundLocalError (msg : String)
  | jsonDecodeError (doc : String)

/-- Uniform result mapping built by the client:
`{success: ..., code: ..., response: ..., [detail: ...]}`. -/
structure Envelope where
  success : Bool
  code : Nat
  response : JVal
  detail : Option JVal := none

/- ### Modelled fragments of the Python standard library -/

/-- Lowercase hex digit (Python `%x` style). -/
def hexDigitLower (n : Nat) : Char :=
  if n < 10 then Char.ofNat (48 + n) else Char.ofNat (87 + n)

/-- Uppercase hex digit (used by `urllib.parse.quote`). -/
def hexDigitUpper (n : Nat) : Char :=
  if n < 10 then Char.ofNat (48 + n) else Char.ofNat (55 + n)

def hex2Upper (n : Nat) : String :=
  String.mk [hexDigitUpper (n / 16 % 16), hexDigitUpper (n % 16)]

def hex4Lower (n : Nat) : String :=
  String.mk [hexDigitLower (n / 4096 % 16), hexDigitLower (n / 256 % 16),
             hexDigitLower (n / 16 % 16), hexDigitLower (n % 16)]

/-- UTF-8 encoding of one character, bytes as `Nat`. -/
def charUtf8 (c : Char) : List Nat :=
  let n := c.toNat
  if n < 128 then [n]
  else if n < 2048 then [192 + n / 64, 128 + n % 64]
  else if n < 65536 then [224 + n / 4096, 128 + n / 64 % 64, 128 + n % 64]
  else [240 + n / 262144, 128 + n / 4096 % 64, 128 + n / 64 % 64, 128 + n % 64]

/-- UTF-8 encoding of a string (Python `str.encode`), bytes as `Nat`. -/
def strUtf8 (s : String) : List Nat :=
  s.data.foldr (fun c acc => charUtf8 c ++ acc) []

/-- UTF-8 decoding, fuelled so that it reduces in the kernel.  Returns `none`
on a malformed sequence. -/
def decodeUtf8Fuel : Nat → List Nat → Option (List Char)
  | _, [] => some []
  | 0, _ => none
  | fuel + 1, b :: rest =>
    if b < 128 then (decodeUtf8Fuel fuel rest).map (Char.ofNat b :: ·)
    else if 194 ≤ b ∧ b ≤ 223 then
      match rest with
      | b2 :: rest2 =>
        if 128 ≤ b2 ∧ b2 < 192 then
          (decodeUtf8Fuel fuel rest2).map
            (Char.ofNat ((b - 192) * 64 + (b2 - 128)) :: ·)
        else none
      | [] => none
    else if 224 ≤ b ∧ b ≤ 239 then
      match rest with
      | b2 :: b3 :: rest2 =>
        if 128 ≤ b2 ∧ b2 < 192 ∧ 128 ≤ b3 ∧ b3 < 192 then
          (decodeUtf8Fuel fuel rest2).map
            (Char.ofNat ((b - 224) * 4096 + (b2 - 128) * 64 + (b3 - 128)) :: ·)
        else none
      | _ => none
    else if 240 ≤ b ∧ b ≤ 244 then
      match rest with
      | b2 :: b3 :: b4 :: rest2 =>
        if 128 ≤ b2 ∧ b2 < 192 ∧ 128 ≤ b3 ∧ b3 < 192 ∧ 128 ≤ b4 ∧ b4 < 192 then
          (decodeUtf8Fuel fuel rest2).map
            (Char.ofNat ((b - 240) * 262144 + (b2 - 128) * 4096 +
              (b3 - 128) * 64 + (b4 - 128)) :: ·)
        else none
      | _ => none
    else none

/-- Value of a hex digit byte, if it is one. -/
def hexByteVal (b : Nat) : Option Nat :=
  if 48 ≤ b ∧ b ≤ 57 then some (b - 48)
  else if 65 ≤ b ∧ b ≤ 70 then some (b - 55)
  else if 97 ≤ b ∧ b ≤ 102 then some (b - 87)
  else none

/-- Percent-decoding at the byte level, as `urllib.parse.unquote` performs it:
byte 37 is the percent sign; a percent sign not followed by two hex digits is
kept literally. -/
def unquoteBytes : List Nat → List Nat
  | [] => []
  | 37 :: h1 :: h2 :: rest =>
    match hexByteVal h1, hexByteVal h2 with
    | some a, some b => (16 * a + b) :: unquoteBytes rest
    | _, _ => 37 :: unquoteBytes (h1 :: h2 :: rest)
  | b :: rest => b :: unquoteBytes rest

/-- Model of `urllib.parse.unquote` on a string: percent-decode the UTF-8 bytes and
decode the result.  Python replaces undecodable bytes with U+FFFD
(`errors=replace`); that corner is modelled as returning the input unchanged —
no input examined in this development produces undecodable bytes. -/
def unquoteStr (s : String) : String :=
  let bs := unquoteBytes (strUtf8 s)
  match decodeUtf8Fuel bs.length bs with
  | some cs => String.mk cs
  | none => s

/-- Model of `urllib.parse.unquote` applied to an arbitrary attribute value, as
`do_refresh_token` does: only strings are accepted; `unquote(None)` or
`unquote` of any non-string raises `TypeError` (the containment test
`percent in string` inside `unquote` fails). -/
def pyUnquote : Option JVal → Except PyError String
  | some (.jstr s) => .ok (unquoteStr s)
  | some v => .error (.typeError ("argument of type " ++ pyTypeName v ++ " is not iterable"))
  | none => .error (.typeError "argument of type NoneType is not iterable")

/-- Bytes kept verbatim by `urllib.parse.quote_plus`: ASCII alphanumerics and
underscore, dot, hyphen, tilde. -/
def isUrlSafeByte (b : Nat) : Bool :=
  (48 ≤ b && b ≤ 57) || (65 ≤ b && b ≤ 90) || (97 ≤ b && b ≤ 122) ||
  b == 95 || b == 46 || b == 45 || b == 126

/-- Model of `urllib.parse.quote_plus`: safe bytes kept, space becomes `+`, everything
else percent-encoded in uppercase hex over the UTF-8 bytes. -/
def quotePlus (s : String) : String :=
  (strUtf8 s).foldl
    (fun acc b =>
      if isUrlSafeByte b then acc.push (Char.ofNat b)
      else if b == 32 then acc.push (Char.ofNat 43)
      else acc ++ "%" ++ hex2Upper b) ""

/-- Python `str()` of a value.  Faithful for the scalar values the client
stringifies (strings, ints, bools, `None`); composite values would print via
`repr`, which no modelled code path does, and are rendered as their JSON
serialization here. -/
def pyStr : JVal → String
  | .jstr s => s
  | .jnum n => toString n
  | .jbool b => cond b "True" "False"
  | .jnull => "None"
  | .jarr _ => "<list>"
  | .jobj _ => "<dict>"

/-- Model of `urllib.parse.urlencode` over a parameter mapping (insertion order):
`k1=v1&k2=v2` with keys and stringified values escaped by `quote_plus`. -/
def urlencode : List (String × JVal) → String
  | [] => ""
  | [(k, v)] => quotePlus k ++ "=" ++ quotePlus (pyStr v)
  | (k, v) :: rest => quotePlus k ++ "=" ++ quotePlus (pyStr v) ++ "&" ++ urlencode rest

/-- JSON string escaping as `json.dumps` performs it (`ensure_ascii=True`):
quote, backslash and the named control characters get two-character escapes,
other controls and all non-ASCII characters become lowercase u-escapes,
astral characters a surrogate pair. -/
def jEscapeChar (c : Char) : String :=
  let n := c.toNat
  if n == 34 then "\\\""
  else if n == 92 then "\\\\"
  else if n == 8 then "\\b"
  else if n == 9 then "\\t"
  else if n == 10 then "\\n"
  else if n == 12 then "\\f"
  else if n == 13 then "\\r"
  else if n < 32 then "\\u" ++ hex4Lower n
  else if n < 127 then String.singleton c
  else if n < 65536 then "\\u" ++ hex4Lower n
  else
    "\\u" ++ hex4Lower (55296 + (n - 65536) / 1024) ++
    "\\u" ++ hex4Lower (56320 + (n - 65536) % 1024)

def jEscape (s : String) : String :=
  s.data.foldl (fun acc c => acc ++ jEscapeChar c) ""

mutual
/-- Model of `json.dumps` with its default separators (`", "` and `": "`). -/
def jdump : JVal → String
  | .jstr s => "\"" ++ jEscape s ++ "\""
  | .jnum n => toString n
  | .jbool b => cond b "true" "false"
  | .jnull => "null"
  | .jarr xs => "[" ++ jdumpArr xs ++ "]"
  | .jobj fs => "\x7b" ++ jdumpObj fs ++ "\x7d"

def jdumpArr : List JVal → String
  | [] => ""
  | [x] => jdump x
  | x :: y :: rest => jdump x ++ ", " ++ jdumpArr (y :: rest)

def jdumpObj : List (String × JVal) → String
  | [] => ""
  | [(k, v)] => "\"" ++ jEscape k ++ "\": " ++ jdump v
  | (k, v) :: p :: rest => "\"" ++ jEscape k ++ "\": " ++ jdump v ++ ", " ++ jdumpObj (p :: rest)
end

/-- First match in an association list (Python dict keys are unique). -/
def assocLookup : List (String × JVal) → String → Option JVal
  | [], _ => none
  | (k, v) :: rest, key => if k == key then some v else assocLookup rest key

/-- Python subscription `value[key]` with a string key: succeeds only on a
dict containing the key; a dict without the key raises `KeyError`, any
non-dict raises `TypeError`. -/
def jlookup (v : JVal) (key : String) : Except PyError JVal :=
  match v with
  | .jobj fields =>
    match assocLookup fields key with
    | some x => .ok x
    | none => .error (.keyError key)
  | .jarr _ => .error (.typeError "list indices must be integers or slices, not str")
  | .jstr _ => .error (.typeError "string indices must be integers")
  | v => .error (.typeError (pyTypeName v ++ " object is not subscriptable"))

/-- Is `pat` a leading segment of `l`? (helper for substring search). -/
def listStartsWith [BEq α] : List α → List α → Bool
  | [], _ => true
  | _ :: _, [] => false
  | a :: as, b :: bs => a == b && listStartsWith as bs

def charsContain (pat : List Char) : List Char → Bool
  | [] => listStartsWith pat []
  | c :: rest => listStartsWith pat (c :: rest) || charsContain pat rest

/-- Python substring test `pat in s`. -/
def strContains (s pat : String) : Bool := charsContain pat.data s.data

/-- Model of `json.loads` applied to an in-memory value, as `get_snapshot` does:
only strings are accepted, everything else raises `TypeError`.  The strings
that reach this call in the client are HTTP reason phrases (`e.msg`), which
are not valid JSON documents, so the string case is modelled as the decode
error Python would raise on them. -/
def pyJsonLoads : JVal → Except PyError JVal
  | .jstr s => .error (.jsonDecodeError s)
  | v => .error (.typeError ("the JSON object must be str, bytes or bytearray, not " ++ pyTypeName v))

/- ### Client data model -/

/-- The three endpoint strings a region row carries
(`regions.py`, a file of static data not included under `src/`). -/
structure RegionInfo where
  prod : String
  sandbox : String
  token_url : String

/-- The mutable `AdvertisingApi` object: credentials fixed at construction,
tokens and scope mutable session state.  Tokens are arbitrary Python values
(`Option JVal`) because `do_refresh_token` stores whatever JSON value the
token endpoint returns. -/
structure ApiState where
  client_id : String
  client_secret : String
  access_token : Option JVal
  refresh_token : Option JVal
  profile_id : Option String
  token_url : String
  endpoint : String
  api_version : String
  user_agent : String

/-- One HTTP request as the client hands it to `urllib.request`. -/
structure HttpRequest where
  url : String
  headers : List (String × String)
  body : Option String
  method : String

/-- Outcome of one `urllib.request.urlopen` call through the default opener:
either a 2xx response carrying a JSON body, or an `HTTPError` carrying the
status, the reason phrase `msg` and an error body. -/
inductive HttpResponse where
  | success (code : Nat) (body : JVal)
  | httpError (code : Nat) (msg : String) (errBody : JVal)

/-- Transport oracle: the response to the n-th HTTP request issued through
the default opener. -/
structure Env where
  http : Nat → HttpResponse

/-- Result of a client operation: the returned value (or the Python
exception that escaped), the final object state — mutations made before a
raise persist — and the HTTP requests issued, in order. -/
structure Outcome where
  res : Except PyError Envelope
  st : ApiState
  reqs : List HttpRequest

/-- Modelled from the spec: the `versions` module (not under `src/`) supplies
a fixed api version string and an application version; their exact values
affect no claim. -/
def versions_api_version : String := "v2"

/-- Modelled from the spec: application version from the `versions` module. -/
def versions_application_version : String := "1.0.0"

/-- The fixed user-agent string built in `__init__`. -/
def fixed_user_agent : String :=
  "AdvertisingAPI Python Client Library v" ++ versions_application_version

/-- Embedding of `AdvertisingApi.__init__`.  The regions table (`regions.py`, not under
`src/`) is passed explicitly.  Raises `ValueError` when both tokens are
`None`, `KeyError` when the region is not in the table; otherwise picks the
sandbox or production host and the token host.  (The second both-`None`
check at the end of the source is unreachable and not modelled.) -/
def apiInit (regions : List (String × RegionInfo)) (client_id client_secret region : String)
    (access_token refresh_token : Option String) (sandbox : Bool) :
    Except PyError ApiState :=
  if access_token = none ∧ refresh_token = none then
    .error (.valueError "access_token and refresh_token is empty. need at least one of them.")
  else
    match List.lookup region regions with
    | some info =>
      .ok { client_id := client_id
            client_secret := client_secret
            access_token := access_token.map .jstr
            refresh_token := refresh_token.map .jstr
            profile_id := none
            token_url := info.token_url
            endpoint := if sandbox then info.sandbox else info.prod
            api_version := versions_api_version
            user_agent := fixed_user_agent }
    | none => .error (.keyError ("Region " ++ region ++ " not found in regions."))

/-- Embedding of `set_profile`: store `str(profile_id)` as the scope and return it. -/
def set_profile (st : ApiState) (profile_id : String) : String × ApiState :=
  (profile_id, { st with profile_id := some profile_id })

/-- Embedding of `do_refresh_token`: returns a code-0 failure envelope when the refresh
token is `None`; otherwise URL-decodes both stored tokens in place (raising
`TypeError` when the access token is `None` or not a string), POSTs the
form-encoded grant to the token host, and inspects the response: on a 2xx
whose text contains the substring `access_token`, stores and returns the
value of that field — a JSON `null` field decodes to Python `None`, so the
attribute then holds `None` (an absent token), not a present value; on a
2xx without the substring returns a failure envelope; an `HTTPError` is
caught into a failure envelope. -/
def do_refresh_token (env : Env) (n : Nat) (st : ApiState) : Outcome :=
  match st.refresh_token with
  | none => ⟨.ok ⟨false, 0, .jstr "refresh_token is empty.", none⟩, st, []⟩
  | some rtok =>
    match pyUnquote st.access_token with
    | .error e => ⟨.error e, st, []⟩
    | .ok a2 =>
      let st1 := { st with access_token := some (.jstr a2) }
      match pyUnquote (some rtok) with
      | .error e => ⟨.error e, st1, []⟩
      | .ok r2 =>
        let st2 := { st1 with refresh_token := some (.jstr r2) }
        let formBody := urlencode
          [("grant_type", .jstr "refresh_token"),
           ("refresh_token", .jstr r2),
           ("client_id", .jstr st2.client_id),
           ("client_secret", .jstr st2.client_secret)]
        let req : HttpRequest :=
          { url := "https://" ++ st2.token_url, headers := [],
            body := some formBody, method := "POST" }
        match env.http n with
        | .success code body =>
          if strContains (jdump body) "access_token" then
            match jlookup body "access_token" with
            | .error e => ⟨.error e, st2, [req]⟩
            | .ok tok =>
              let st3 := { st2 with access_token :=
                match tok with
                | .jnull => none
                | t => some t }
              ⟨.ok ⟨true, code, tok, none⟩, st3, [req]⟩
          else
            ⟨.ok ⟨false, code, .jstr "access_token not in response.", none⟩, st2, [req]⟩
        | .httpError code msg _ =>
          ⟨.ok ⟨false, code, .jstr msg, none⟩, st2, [req]⟩

/-- The access-token precondition at the top of `_operation`: when the stored
access token is `None`, call `do_refresh_token` first; a refresh failure
envelope aborts the operation with
`{success: False, code: 0, response: access_token is empty.}`, an exception
raised by the refresh propagates.  Returns `some r` when the operation must
return `r` immediately, together with the state and requests so far. -/
def ensureToken (env : Env) (n : Nat) (st : ApiState) :
    Option (Except PyError Envelope) × ApiState × List HttpRequest :=
  match st.access_token with
  | some _ => (none, st, [])
  | none =>
    let o := do_refresh_token env n st
    match o.res with
    | .error e => (some (.error e), o.st, o.reqs)
    | .ok envl =>
      if envl.success then (none, o.st, o.reqs)
      else (some (.ok ⟨false, 0, .jstr "access_token is empty.", none⟩), o.st, o.reqs)

/-- Request headers built by `_operation`: bearer authorization from the
current access token, fixed content type and user agent, the client id, and
the scope header exactly when the profile id is set and non-empty. -/
def opHeaders (st : ApiState) : List (String × String) :=
  let base :=
    [("Authorization", "bearer " ++ (match st.access_token with
        | some v => pyStr v
        | none => "None")),
     ("Content-Type", "application/json"),
     ("User-Agent", st.user_agent),
     ("Amazon-Advertising-API-ClientId", st.client_id)]
  match st.profile_id with
  | some p => if p != "" then base ++ [("Amazon-Advertising-API-Scope", p)] else base
  | none => base

/-- URL and request body built by `_operation` (lines 942-962): for `GET`
the parameters become a url-encoded query string and no body is sent; for
every other verb the parameters, when present, are JSON-serialized as the
body and the URL carries no query string. -/
def buildUrlData (st : ApiState) (interface : String)
    (params : Option (List (String × JVal))) (method : String) :
    String × Option String :=
  if method == "GET" then
    let p := match params with
      | some ps => "?" ++ urlencode ps
      | none => ""
    ("https://" ++ st.endpoint ++ "/" ++ st.api_version ++ "/" ++ interface ++ p, none)
  else
    let data := params.map (fun ps => jdump (.jobj ps))
    ("https://" ++ st.endpoint ++ "/" ++ st.api_version ++ "/" ++ interface, data)

/-- Embedding of `_operation` called with `auto_refresh=False` (the retried attempt): the
recoverable-401 branch is disabled, so every `HTTPError` whose body carries a
`details` field becomes a failure envelope with code, reason phrase and
detail; a body without `details` raises.  The token precondition is
re-checked, exactly as the recursive Python call re-enters `_operation`. -/
def operationNR (env : Env) (n : Nat) (st : ApiState) (interface : String)
    (params : Option (List (String × JVal))) (method : String) : Outcome :=
  match ensureToken env n st with
  | (some r, st1, reqs1) => ⟨r, st1, reqs1⟩
  | (none, st1, reqs1) =>
    let ud := buildUrlData st1 interface params method
    let req : HttpRequest := ⟨ud.1, opHeaders st1, ud.2, method⟩
    match env.http (n + reqs1.length) with
    | .success code body => ⟨.ok ⟨true, code, body, none⟩, st1, reqs1 ++ [req]⟩
    | .httpError code msg errBody =>
      match jlookup errBody "details" with
      | .error e => ⟨.error e, st1, reqs1 ++ [req]⟩
      | .ok d => ⟨.ok ⟨false, code, .jstr msg, some d⟩, st1, reqs1 ++ [req]⟩

/-- Embedding of `_operation` called with `auto_refresh=True` (every public call starts
here): like `operationNR`, except that an `HTTPError` with status 401 whose
`details` equal `Authentication failed` triggers `do_refresh_token` — whose
returned envelope is discarded, though an exception it raises propagates —
followed by exactly one retry with `auto_refresh=False`.  The self-recursion of the source with the flag is unrolled into these two definitions. -/
def operation (env : Env) (n : Nat) (st : ApiState) (interface : String)
    (params : Option (List (String × JVal))) (method : String) : Outcome :=
  match ensureToken env n st with
  | (some r, st1, reqs1) => ⟨r, st1, reqs1⟩
  | (none, st1, reqs1) =>
    let ud := buildUrlData st1 interface params method
    let req : HttpRequest := ⟨ud.1, opHeaders st1, ud.2, method⟩
    match env.http (n + reqs1.length) with
    | .success code body => ⟨.ok ⟨true, code, body, none⟩, st1, reqs1 ++ [req]⟩
    | .httpError code msg errBody =>
      match jlookup errBody "details" with
      | .error e => ⟨.error e, st1, reqs1 ++ [req]⟩
      | .ok d =>
        if code == 401 && jeq d (.jstr "Authentication failed") then
          let r := do_refresh_token env (n + reqs1.length + 1) st1
          match r.res with
          | .error e => ⟨.error e, r.st, reqs1 ++ [req] ++ r.reqs⟩
          | .ok _ =>
            let o2 := operationNR env (n + reqs1.length + 1 + r.reqs.length) r.st
              interface params method
            ⟨o2.res, o2.st, reqs1 ++ [req] ++ r.reqs ++ o2.reqs⟩
        else ⟨.ok ⟨false, code, .jstr msg, some d⟩, st1, reqs1 ++ [req]⟩

/- ### Public resource methods needed by the claims -/

/-- Interface path built by `get_biddable_keyword`:
`{ads_type}/keywords/{keyword_id}`. -/
def get_biddable_keyword_interface (keyword_id ads_type : String) : String :=
  ads_type ++ "/keywords/" ++ keyword_id

/-- Interface path built by `get_negative_keyword`.  The source formats the
template `/negativeKeywords/` + one placeholder with the two arguments
`(ads_type, negative_keyword_id)`; `str.format` fills the single placeholder
with `ads_type` and silently ignores the extra argument, so the identifier
never reaches the path. -/
def get_negative_keyword_interface (negative_keyword_id ads_type : String) : String :=
  let _ := negative_keyword_id
  "/negativeKeywords/" ++ ads_type

/-- Interface path built by `get_negative_keyword_ex`; same extra-argument
behaviour as `get_negative_keyword_interface`. -/
def get_negative_keyword_ex_interface (negative_keyword_id ads_type : String) : String :=
  let _ := negative_keyword_id
  "/negativeKeywords/extended/" ++ ads_type

def get_biddable_keyword (env : Env) (n : Nat) (st : ApiState)
    (keyword_id ads_type : String) : Outcome :=
  operation env n st (get_biddable_keyword_interface keyword_id ads_type) none "GET"

def get_negative_keyword (env : Env) (n : Nat) (st : ApiState)
    (negative_keyword_id ads_type : String) : Outcome :=
  operation env n st (get_negative_keyword_interface negative_keyword_id ads_type) none "GET"

def get_negative_keyword_ex (env : Env) (n : Nat) (st : ApiState)
    (negative_keyword_id ads_type : String) : Outcome :=
  operation env n st (get_negative_keyword_ex_interface negative_keyword_id ads_type) none "GET"

/-- Embedding of `request_snapshot(record_type=None, snapshot_id=None, data=None)`:
with a record type, POST to `{record_type}/snapshot`; otherwise with a
snapshot id, GET `snapshots/{snapshot_id}`; with both arguments `None` the
function body falls through every branch and Python returns `None` — hence
the `Option` result. -/
def request_snapshot (env : Env) (n : Nat) (st : ApiState)
    (record_type snapshot_id : Option String)
    (data : Option (List (String × JVal))) : Option Outcome :=
  match record_type with
  | some rt => some (operation env n st (rt ++ "/snapshot") data "POST")
  | none =>
    match snapshot_id with
    | some sid => some (operation env n st ("snapshots/" ++ sid) data "GET")
    | none => none

/-- Embedding of `request_report(record_type=None, report_id=None, data=None, ads_type)`:
same fall-through shape as `request_snapshot`. -/
def request_report (env : Env) (n : Nat) (st : ApiState)
    (record_type report_id : Option String)
    (data : Option (List (String × JVal))) (ads_type : String) : Option Outcome :=
  match record_type with
  | some rt => some (operation env n st (ads_type ++ "/" ++ rt ++ "/report") data "POST")
  | none =>
    match report_id with
    | some rid => some (operation env n st ("reports/" ++ rid) none "GET")
    | none => none

/-- What the first `urlopen` inside `_download` yields through the
redirect-suppressing opener: a 307 is intercepted by `NoRedirectHandler`,
which hands back a mapping with the `Location` header value (or `None` when
the header is missing) instead of following the redirect; a non-307 success
passes through as an ordinary response object; an HTTP error is raised. -/
inductive DlFirstResponse where
  | redirect (location : Option String)
  | nonRedirect (code : Nat)
  | httpError (code : Nat) (msg : String)

/-- Embedding of `_download(location)` plus `NoRedirectHandler`: raises `ValueError` when
no scope is set; otherwise GETs `location` with bearer/client/scope headers
through the redirect-suppressing opener.  When that yields an intercepted
307 with a target, a second GET without any headers fetches the pre-signed
target (`second`), whose gzip-compressed body is decompressed and
JSON-decoded into `response.data` with `response.status = SUCCESS`; an
`HTTPError` from either fetch is caught into a plain failure envelope.  In
the branches for a missing or empty redirect location the source returns an
envelope built from `res.code`, but `res` is only assigned on the success
path, so Python raises `UnboundLocalError` there instead. -/
def download (first : DlFirstResponse) (second : HttpResponse)
    (st : ApiState) (location : String) : Outcome :=
  match st.profile_id with
  | none => ⟨.error (.valueError "Invalid profile Id."), st, []⟩
  | some p =>
    let headers :=
      [("Authorization", "Bearer " ++ (match st.access_token with
          | some v => pyStr v
          | none => "None")),
       ("Content-Type", "application/json"),
       ("User-Agent", st.user_agent),
       ("Amazon-Advertising-API-ClientId", st.client_id),
       ("Amazon-Advertising-API-Scope", p)]
    let req1 : HttpRequest := ⟨location, headers, none, "GET"⟩
    match first with
    | .redirect (some target) =>
      let req2 : HttpRequest := ⟨target, [], none, "GET"⟩
      match second with
      | .success code payload =>
        ⟨.ok ⟨true, code,
          .jobj [("status", .jstr "SUCCESS"), ("data", payload)], none⟩,
          st, [req1, req2]⟩
      | .httpError code msg _ =>
        ⟨.ok ⟨false, code, .jstr msg, none⟩, st, [req1, req2]⟩
    | .redirect none =>
      ⟨.error (.unboundLocalError "local variable res referenced before assignment"),
        st, [req1]⟩
    | .nonRedirect _ =>
      ⟨.error (.unboundLocalError "local variable res referenced before assignment"),
        st, [req1]⟩
    | .httpError code msg =>
      ⟨.ok ⟨false, code, .jstr msg, none⟩, st, [req1]⟩

/-- Embedding of `get_snapshot(snapshot_id)`: poll `snapshots/{snapshot_id}` through
`_operation`, then apply `json.loads` to the `response` entry of the
resulting envelope.  On a successful poll that entry is already a decoded
dict, so `json.loads` raises `TypeError`; on a failed poll it is the reason
phrase string, which is not valid JSON.  The download oracles `first` and
`second` describe the transport behind `_download` for the (unreachable)
successful decode. -/
def get_snapshot (env : Env) (n : Nat) (st : ApiState)
    (first : DlFirstResponse) (second : HttpResponse)
    (snapshot_id : String) : Outcome :=
  let o := operation env n st ("snapshots/" ++ snapshot_id) none "GET"
  match o.res with
  | .error _ => o
  | .ok envl =>
    match pyJsonLoads envl.response with
    | .error e => ⟨.error e, o.st, o.reqs⟩
    | .ok v =>
      match jlookup v "status" with
      | .error e => ⟨.error e, o.st, o.reqs⟩
      | .ok sv =>
        if jeq sv (.jstr "SUCCESS") then
          match pyJsonLoads envl.response with
          | .error e => ⟨.error e, o.st, o.reqs⟩
          | .ok v2 =>
            match jlookup v2 "location" with
            | .error e => ⟨.error e, o.st, o.reqs⟩
            | .ok (.jstr loc) =>
              let d := download first second o.st loc
              ⟨d.res, d.st, o.reqs ++ d.reqs⟩
            | .ok _ => ⟨.error (.typeError "url must be a str"), o.st, o.reqs⟩
        else o

/- ### Helper lemmas -/

/-- Lemma: `do_refresh_token` touches only the two token fields: credentials,
scope, hosts and version strings are preserved. -/
theorem do_refresh_token_preserves (env : Env) (n : Nat) (st : ApiState) :
    (do_refresh_token env n st).st.client_id = st.client_id ∧
    (do_refresh_token env n st).st.client_secret = st.client_secret ∧
    (do_refresh_token env n st).st.profile_id = st.profile_id ∧
    (do_refresh_token env n st).st.token_url = st.token_url ∧
    (do_refresh_token env n st).st.endpoint = st.endpoint ∧
    (do_refresh_token env n st).st.api_version = st.api_version ∧
    (do_refresh_token env n st).st.user_agent = st.user_agent := by
  refine ⟨?_, ?_, ?_, ?_, ?_, ?_, ?_⟩ <;>
  · unfold do_refresh_token
    repeat' split <;> try rfl

/-- Lemma: `buildUrlData` reads only the endpoint and api version of the state. -/
theorem buildUrlData_congr (st1 st2 : ApiState) (interface : String)
    (params : Option (List (String × JVal))) (method : String)
    (he : st1.endpoint = st2.endpoint) (ha : st1.api_version = st2.api_version) :
    buildUrlData st1 interface params method = buildUrlData st2 interface params method := by
  simp [buildUrlData, he, ha]

example : unquoteStr "a%20b" = "a b" := by decide
example : unquoteStr "atok" = "atok" := by decide
example : urlencode [("count", .jnum 10)] = "count=10" := by decide
example : urlencode [("a b", .jstr "c&d")] = "a+b=c%26d" := by decide
example : jdump (.jobj [("count", .jnum 10)]) = "\x7b\"count\": 10\x7d" := by decide
example : strContains (jdump (.jobj [("token_type", .jstr "bearer")])) "access_token" = false := by decide
example : strContains (jdump (.jobj [("access_token", .jstr "t")])) "access_token" = true := by decide

/- ### Concrete sample data used by witnesses and counterexamples -/

/-- A two-row instance of the regions table shape. -/
def sampleRegions : List (String × RegionInfo) :=
  [("na", ⟨"advertising-api.amazon.com", "advertising-api-test.amazon.com",
           "api.amazon.com/auth/o2/token"⟩),
   ("eu", ⟨"advertising-api-eu.amazon.com", "advertising-api-test.amazon.com",
           "api.amazon.co.uk/auth/o2/token"⟩)]

/-- The client state `apiInit sampleRegions "cid" "csec" "na" (some "atok")
(some "rtok") false` produces. -/
def sampleState : ApiState :=
  { client_id := "cid", client_secret := "csec",
    access_token := some (.jstr "atok"), refresh_token := some (.jstr "rtok"),
    profile_id := none, token_url := "api.amazon.com/auth/o2/token",
    endpoint := "advertising-api.amazon.com",
    api_version := versions_api_version, user_agent := fixed_user_agent }

example :
    apiInit sampleRegions "cid" "csec" "na" (some "atok") (some "rtok") false =
      .ok sampleState := by rfl

/-- A transport that always answers 200 with a successful poll body. -/
def pollEnv : Env :=
  ⟨fun _ => .success 200 (.jobj [("status", .jstr "SUCCESS"),
                                 ("location", .jstr "https://host/download")])⟩

/-- C5: construction fails exactly when both tokens are absent or the region
is not in the table; otherwise it succeeds, and no network is involved
(`apiInit` is a pure function of its arguments). -/
theorem apiInit_fails_iff (tbl : List (String × RegionInfo)) (cid cs reg : String)
    (atk rtk : Option String) (sb : Bool) :
    (∃ e, apiInit tbl cid cs reg atk rtk sb = .error e) ↔
      ((atk = none ∧ rtk = none) ∨ List.lookup reg tbl = none) := by
  unfold apiInit
  by_cases hb : atk = none ∧ rtk = none
  · simp [hb]
  · rw [if_neg hb]
    cases hl : List.lookup reg tbl with
    | none => simp [hb]
    | some info => simp [hb]

/-- C7: a `GET` with a parameter set sends them as a url-encoded query string
and no body; any other verb sends them as a JSON body with no query string. -/
theorem params_get_query_other_body (st : ApiState) (interface : String)
    (ps : List (String × JVal)) (method : String) (hm : method ≠ "GET") :
    buildUrlData st interface (some ps) "GET" =
      ("https://" ++ st.endpoint ++ "/" ++ st.api_version ++ "/" ++ interface ++
        "?" ++ urlencode ps, none) ∧
    buildUrlData st interface (some ps) method =
      ("https://" ++ st.endpoint ++ "/" ++ st.api_version ++ "/" ++ interface,
        some (jdump (.jobj ps))) := by
  constructor
  · simp [buildUrlData, String.append_assoc]
  · have h : (method == "GET") = false := by simpa using hm
    simp [buildUrlData, h]

/-- Witness for C7 at `method := POST`, `params := count=10`. -/
theorem params_get_query_other_body_witness :
    buildUrlData sampleState "sp/campaigns" (some [("count", JVal.jnum 10)]) "POST" =
      ("https://" ++ sampleState.endpoint ++ "/" ++ sampleState.api_version ++
        "/" ++ "sp/campaigns",
        some (jdump (.jobj [("count", JVal.jnum 10)]))) :=
  (params_get_query_other_body sampleState "sp/campaigns"
    [("count", JVal.jnum 10)] "POST" (by decide)).2

/-- C1 (code bug): `request_snapshot` and `request_report` invoked with both
the record-type and id arguments absent fall through every branch and return
`None` instead of a result envelope, and `get_snapshot` applied to a
successful poll hands the already-decoded response dict to `json.loads`,
which raises `TypeError` — so an exception escapes instead of an envelope
being returned. -/
theorem envelope_totality_violations :
    (∀ (env : Env) (n : Nat) (st : ApiState) (d : Option (List (String × JVal))),
      request_snapshot env n st none none d = none) ∧
    (∀ (env : Env) (n : Nat) (st : ApiState) (d : Option (List (String × JVal)))
      (ads : String), request_report env n st none none d ads = none) ∧
    (get_snapshot pollEnv 0 sampleState
        (.redirect (some "https://host/file.gz")) (.success 200 .jnull) "42").res =
      .error (.typeError "the JSON object must be str, bytes or bytearray, not dict") :=
  ⟨fun _ _ _ _ => rfl, fun _ _ _ _ _ => rfl, rfl⟩

/-- The state of a client constructed with `access_token=None` and a refresh
token — the standard refresh-token-only construction. -/
def noAccessState : ApiState := { sampleState with access_token := none }

/-- C3 (code bug): a resource operation begun with no stored access token
calls `do_refresh_token`, which immediately applies `urllib.parse.unquote`
to the `None` access token and raises `TypeError` — before any HTTP request
(refresh or resource) is issued and instead of the claimed
`{success: False, code: 0, response: access_token is empty.}` envelope. -/
theorem operation_no_access_token_crashes :
    operation pollEnv 0 noAccessState "profiles" none "GET" =
      ⟨.error (.typeError "argument of type NoneType is not iterable"),
        noAccessState, []⟩ :=
  rfl

/-- A client state with the scope set, as required before downloads. -/
def scopedState : ApiState := { sampleState with profile_id := some "777" }

/-- A sample decoded report payload. -/
def payload0 : JVal := .jarr [.jobj [("campaignId", .jnum 1), ("clicks", .jnum 5)]]

/-- C6 (code bug): the download step requires a scope (raising `ValueError`
when unset), intercepts the 307 instead of following it, GETs the redirect
target without any headers, and nests the decompressed decoded payload under
`response.data` with `response.status = SUCCESS`; but when the 307 carries no
redirect location, the FAIL-envelope branch of the source reads the unassigned
variable `res` and raises `UnboundLocalError` instead of returning the
claimed envelope. -/
theorem download_behaviour_and_unbound_res :
    download (.redirect (some "https://presigned/file.gz")) (.success 200 payload0)
        scopedState "https://host/download" =
      ⟨.ok ⟨true, 200, .jobj [("status", .jstr "SUCCESS"), ("data", payload0)], none⟩,
        scopedState,
        [⟨"https://host/download",
          [("Authorization", "Bearer atok"), ("Content-Type", "application/json"),
           ("User-Agent", fixed_user_agent), ("Amazon-Advertising-API-ClientId", "cid"),
           ("Amazon-Advertising-API-Scope", "777")], none, "GET"⟩,
         ⟨"https://presigned/file.gz", [], none, "GET"⟩]⟩ ∧
    download (.redirect none) (.success 200 payload0)
        scopedState "https://host/download" =
      ⟨.error (.unboundLocalError "local variable res referenced before assignment"),
        scopedState,
        [⟨"https://host/download",
          [("Authorization", "Bearer atok"), ("Content-Type", "application/json"),
           ("User-Agent", fixed_user_agent), ("Amazon-Advertising-API-ClientId", "cid"),
           ("Amazon-Advertising-API-Scope", "777")], none, "GET"⟩]⟩ ∧
    download (.redirect (some "https://presigned/file.gz")) (.success 200 payload0)
        sampleState "https://host/download" =
      ⟨.error (.valueError "Invalid profile Id."), sampleState, []⟩ :=
  ⟨rfl, rfl, rfl⟩

/-- C8 (code bug): `get_negative_keyword` and `get_negative_keyword_ex` build
a path that drops the supplied identifier entirely — the single placeholder
of the template takes `ads_type` and the identifier is an ignored extra
format argument — unlike the analogous `get_biddable_keyword`, whose path is
`ads_type/keywords/id`.  The issued request URL therefore contains the
ads type where the identifier belongs (after a doubled slash, since the
broken template starts with a slash). -/
theorem negative_keyword_path_drops_id :
    get_negative_keyword_interface "1234" "sp" = "/negativeKeywords/sp" ∧
    strContains (get_negative_keyword_interface "1234" "sp") "1234" = false ∧
    get_negative_keyword_ex_interface "1234" "sp" = "/negativeKeywords/extended/sp" ∧
    strContains (get_negative_keyword_ex_interface "1234" "sp") "1234" = false ∧
    get_biddable_keyword_interface "1234" "sp" = "sp/keywords/1234" ∧
    (get_negative_keyword pollEnv 0 sampleState "1234" "sp").reqs =
      [⟨"https://advertising-api.amazon.com/v2//negativeKeywords/sp",
        [("Authorization", "bearer atok"), ("Content-Type", "application/json"),
         ("User-Agent", fixed_user_agent), ("Amazon-Advertising-API-ClientId", "cid")],
        none, "GET"⟩] :=
  ⟨rfl, by decide, rfl, by decide, rfl, rfl⟩

/-- A token endpoint answering 200 with a body that lacks the
`access_token` field (and does not even contain the substring). -/
def tokenlessEnv : Env :=
  ⟨fun _ => .success 200 (.jobj [("token_type", .jstr "bearer")])⟩

/-- A client whose stored access token contains a percent-escape. -/
def escState : ApiState := { sampleState with access_token := some (.jstr "a%20b") }

/-- C4 counterexample: on a 200 whose body lacks `access_token` the refresh
does return the claimed failure envelope, but the stored access token is NOT
left unchanged — `do_refresh_token` URL-decodes both stored tokens in place
before the HTTP call, so `a%20b` has become `a b` — refuting the claim that
the stored session token is mutated only when refresh succeeds. -/
theorem refresh_no_token_field_mutates :
    (do_refresh_token tokenlessEnv 0 escState).res =
      .ok ⟨false, 200, .jstr "access_token not in response.", none⟩ ∧
    (do_refresh_token tokenlessEnv 0 escState).st.access_token =
      some (.jstr "a b") ∧
    "a b" ≠ "a%20b" :=
  ⟨rfl, rfl, by decide⟩

/-- C4 amended: on an HTTP success, `do_refresh_token` has first replaced
both stored tokens in place by their URL-decoded forms (unchanged exactly
when decoding is the identity, e.g. no percent-escapes); it then tests the
serialized response text for the substring `access_token` — the source
checks the raw text, not the decoded fields.  When the text lacks the
substring it returns
`{success: False, code: <status>, response: access_token not in response.}`;
when the text contains the substring but the decoded body is an object
lacking the field, the field access raises `KeyError` instead.  In both
cases no token value from the response is stored: that happens only when
refresh succeeds. -/
theorem refresh_no_token_field_amended (env : Env) (n : Nat) (st : ApiState)
    (a r : String) (code : Nat) (body : JVal)
    (ha : st.access_token = some (.jstr a))
    (hr : st.refresh_token = some (.jstr r))
    (hresp : env.http n = .success code body) :
    (strContains (jdump body) "access_token" = false →
      do_refresh_token env n st =
        ⟨.ok ⟨false, code, .jstr "access_token not in response.", none⟩,
          { st with access_token := some (.jstr (unquoteStr a)),
                    refresh_token := some (.jstr (unquoteStr r)) },
          [⟨"https://" ++ st.token_url, [],
            some (urlencode
              [("grant_type", .jstr "refresh_token"),
               ("refresh_token", .jstr (unquoteStr r)),
               ("client_id", .jstr st.client_id),
               ("client_secret", .jstr st.client_secret)]), "POST"⟩]⟩) ∧
    (∀ fields, body = .jobj fields →
      assocLookup fields "access_token" = none →
      strContains (jdump body) "access_token" = true →
      do_refresh_token env n st =
        ⟨.error (.keyError "access_token"),
          { st with access_token := some (.jstr (unquoteStr a)),
                    refresh_token := some (.jstr (unquoteStr r)) },
          [⟨"https://" ++ st.token_url, [],
            some (urlencode
              [("grant_type", .jstr "refresh_token"),
               ("refresh_token", .jstr (unquoteStr r)),
               ("client_id", .jstr st.client_id),
               ("client_secret", .jstr st.client_secret)]), "POST"⟩]⟩) := by
  constructor
  · intro hmiss
    simp [do_refresh_token, ha, hr, pyUnquote, hresp, hmiss]
  · intro fields hbody hfield hsub
    subst hbody
    simp [do_refresh_token, ha, hr, pyUnquote, hresp, hsub, jlookup, hfield]

/-- Witness for the amended C4: the substring-free branch at a concrete
escaped token and a concrete 200-without-the-substring response. -/
theorem refresh_no_token_field_amended_witness :
    do_refresh_token tokenlessEnv 0 escState =
      ⟨.ok ⟨false, 200, .jstr "access_token not in response.", none⟩,
        { escState with access_token := some (.jstr (unquoteStr "a%20b")),
                        refresh_token := some (.jstr (unquoteStr "rtok")) },
        [⟨"https://" ++ escState.token_url, [],
          some (urlencode
            [("grant_type", .jstr "refresh_token"),
             ("refresh_token", .jstr (unquoteStr "rtok")),
             ("client_id", .jstr escState.client_id),
             ("client_secret", .jstr escState.client_secret)]), "POST"⟩]⟩ :=
  (refresh_no_token_field_amended tokenlessEnv 0 escState "a%20b" "rtok" 200
    (.jobj [("token_type", .jstr "bearer")]) rfl rfl rfl).1 (by decide)

/-- C9: `set_profile` stores the value and returns it; after it, the headers
the request-execution routine builds carry the scope header with that value,
and every request it issues carries exactly those headers — while with the
scope unset or empty the header is absent.  (The claim is about the requests
built by `_operation`; the second, deliberately header-less pre-signed fetch
inside `_download` is outside its scope.) -/
theorem set_profile_scope_header (st st2 : ApiState) (p : String) (env : Env)
    (n c : Nat) (b v : JVal) (interface : String)
    (params : Option (List (String × JVal))) (method : String)
    (hp : p ≠ "")
    (htok : st2.access_token = some v)
    (hprof : st2.profile_id = some p)
    (henv : env.http n = .success c b) :
    (set_profile st p).1 = p ∧
    ((set_profile st p).2).profile_id = some p ∧
    List.lookup "Amazon-Advertising-API-Scope" (opHeaders st2) = some p ∧
    (∀ st3 : ApiState, st3.profile_id = none ∨ st3.profile_id = some "" →
      List.lookup "Amazon-Advertising-API-Scope" (opHeaders st3) = none) ∧
    (operation env n st2 interface params method).reqs =
      [⟨(buildUrlData st2 interface params method).1, opHeaders st2,
        (buildUrlData st2 interface params method).2, method⟩] := by
  refine ⟨rfl, rfl, ?_, ?_, ?_⟩
  · simp [opHeaders, hprof, hp, List.lookup]
  · intro st3 h3
    rcases h3 with h3 | h3 <;> simp [opHeaders, h3, List.lookup]
  · simp [operation, ensureToken, htok, henv]

/-- Witness for C9: scope `12345` on the sample client. -/
theorem set_profile_scope_header_witness :
    List.lookup "Amazon-Advertising-API-Scope"
        (opHeaders ((set_profile sampleState "12345").2)) = some "12345" :=
  (set_profile_scope_header sampleState ((set_profile sampleState "12345").2)
    "12345" pollEnv 0 200
    (.jobj [("status", .jstr "SUCCESS"), ("location", .jstr "https://host/download")])
    (.jstr "atok") "profiles" none "GET"
    (by decide) rfl rfl rfl).2.2.1

/-- Lemma: `do_refresh_token` issues at most one HTTP request, always a bare POST
to the token host. -/
theorem do_refresh_token_reqs_shape (env : Env) (n : Nat) (st : ApiState) :
    (do_refresh_token env n st).reqs = [] ∨
    ∃ body, (do_refresh_token env n st).reqs =
      [{ url := "https://" ++ st.token_url, headers := [], body := some body,
         method := "POST" }] := by
  unfold do_refresh_token
  repeat' split
  all_goals first | exact Or.inl rfl | exact Or.inr ⟨_, rfl⟩

/-- C2 amended: when the first resource attempt fails with 401 and detail
`Authentication failed`, the client performs exactly one token refresh
(at most one further HTTP request, to the token host) and — provided the
refresh returned a value (`h4`) and left an access token stored (`hw`) —
exactly one retry of the same request: same URL, same body, same method,
headers rebuilt from the post-refresh state, with re-authentication
suppressed.  Any failure of the retried attempt is then returned as a
failure envelope carrying its status code, reason phrase and detail (a
second consecutive 401 included, since the recoverable-401 branch of the
retry is disabled), and no further requests are issued.  The proviso `hw`
is necessary: a 2xx refresh whose `access_token` field is JSON null stores
`None`, and the retried call then raises before sending anything — see the
counterexample `operation_401_null_refresh_no_retry`.  An access token is
present at the start (`h1`) whenever a first attempt was made at all. -/
theorem operation_401_single_retry (env : Env) (n : Nat) (st : ApiState)
    (interface : String) (params : Option (List (String × JVal))) (method : String)
    (tok b1 : JVal) (msg : String) (r : Outcome) (renv : Envelope) (w : JVal)
    (c2 : Nat) (m2 : String) (b2 d2 : JVal)
    (h1 : st.access_token = some tok)
    (h2 : env.http n = .httpError 401 msg b1)
    (h3 : jlookup b1 "details" = .ok (.jstr "Authentication failed"))
    (hr : r = do_refresh_token env (n + 1) st)
    (h4 : r.res = .ok renv)
    (hw : r.st.access_token = some w)
    (h5 : env.http (n + 1 + r.reqs.length) = .httpError c2 m2 b2)
    (h6 : jlookup b2 "details" = .ok d2) :
    operation env n st interface params method =
      ⟨.ok ⟨false, c2, .jstr m2, some d2⟩, r.st,
        ⟨(buildUrlData st interface params method).1, opHeaders st,
          (buildUrlData st interface params method).2, method⟩ ::
        (r.reqs ++
          [⟨(buildUrlData st interface params method).1, opHeaders r.st,
            (buildUrlData st interface params method).2, method⟩])⟩ ∧
    r.reqs.length ≤ 1 ∧
    ∀ q ∈ r.reqs, q.url = "https://" ++ st.token_url ∧ q.method = "POST" := by
  have hpres := do_refresh_token_preserves env (n + 1) st
  have hshape := do_refresh_token_reqs_shape env (n + 1) st
  rw [← hr] at hpres hshape
  have hbud : buildUrlData r.st interface params method
      = buildUrlData st interface params method :=
    buildUrlData_congr _ _ _ _ _ hpres.2.2.2.2.1 hpres.2.2.2.2.2.1
  refine ⟨?_, ?_, ?_⟩
  · simp only [operation, operationNR, ensureToken, h1, h2, h3, jeq,
      List.length_nil, Nat.add_zero, List.nil_append, List.append_nil]
    simp only [← hr, h4, hw, h5, h6, hbud]
    simp [h5, h6, beq_self_eq_true]
  · rcases hshape with h | ⟨body, h⟩ <;> simp [h]
  · rcases hshape with h | ⟨body, h⟩ <;> simp [h]

/-- Transport for the C2 witness: first attempt 401 with the recoverable
detail, then a successful token refresh, then a 400 on the retry. -/
def retryEnv : Env :=
  ⟨fun k => match k with
    | 0 => .httpError 401 "Unauthorized"
        (.jobj [("details", .jstr "Authentication failed")])
    | 1 => .success 200 (.jobj [("access_token", .jstr "newtok")])
    | _ => .httpError 400 "Bad Request"
        (.jobj [("details", .jstr "Bad campaign")])⟩

/-- Witness for C2 on the concrete `retryEnv` transport. -/
theorem operation_401_single_retry_witness :
    operation retryEnv 0 sampleState "sp/campaigns" none "GET" =
      ⟨.ok ⟨false, 400, .jstr "Bad Request", some (.jstr "Bad campaign")⟩,
        (do_refresh_token retryEnv 1 sampleState).st,
        ⟨(buildUrlData sampleState "sp/campaigns" none "GET").1, opHeaders sampleState,
          (buildUrlData sampleState "sp/campaigns" none "GET").2, "GET"⟩ ::
        ((do_refresh_token retryEnv 1 sampleState).reqs ++
          [⟨(buildUrlData sampleState "sp/campaigns" none "GET").1,
            opHeaders (do_refresh_token retryEnv 1 sampleState).st,
            (buildUrlData sampleState "sp/campaigns" none "GET").2, "GET"⟩])⟩ :=
  (operation_401_single_retry retryEnv 0 sampleState "sp/campaigns" none "GET"
    (.jstr "atok") (.jobj [("details", .jstr "Authentication failed")]) "Unauthorized"
    (do_refresh_token retryEnv 1 sampleState)
    ⟨true, 200, .jstr "newtok", none⟩ (.jstr "newtok") 400 "Bad Request"
    (.jobj [("details", .jstr "Bad campaign")]) (.jstr "Bad campaign")
    rfl rfl rfl rfl rfl rfl rfl rfl).1

/-- Transport for the C2 counterexample: a recoverable 401, then a 2xx
refresh whose `access_token` field is JSON null. -/
def nullTokenEnv : Env :=
  ⟨fun k => match k with
    | 0 => .httpError 401 "Unauthorized"
        (.jobj [("details", .jstr "Authentication failed")])
    | _ => .success 200 (.jobj [("access_token", .jnull)])⟩

/-- C2 counterexample: a first attempt failing 401 with the recoverable
detail, where the intervening refresh answers 200 with a JSON-null
`access_token` — the client stores Python `None` as its token, the retried
`_operation` re-enters `do_refresh_token`, and `unquote(None)` raises
`TypeError`: the retry request is never issued (only the first resource
request and the one refresh POST go out, two requests in total) and an
exception escapes instead of a failure envelope being returned, refuting
the claim as stated. -/
theorem operation_401_null_refresh_no_retry :
    operation nullTokenEnv 0 sampleState "sp/campaigns" none "GET" =
      ⟨.error (.typeError "argument of type NoneType is not iterable"),
        noAccessState,
        [⟨(buildUrlData sampleState "sp/campaigns" none "GET").1,
          opHeaders sampleState,
          (buildUrlData sampleState "sp/campaigns" none "GET").2, "GET"⟩,
         ⟨"https://" ++ sampleState.token_url, [],
          some "grant_type=refresh_token&refresh_token=rtok&client_id=cid&client_secret=csec",
          "POST"⟩]⟩ :=
  rfl

/-- C10: after a recoverable first 401 the retry is issued unconditionally —
here the refresh itself fails (the refresh token is absent, so
`do_refresh_token` returns a failure envelope without any HTTP call), the
failure value is discarded, and the retry is sent with the access token
still stored at that point: the two issued resource requests are literally
identical, and the outcome of the retry (here a success) becomes the result of
the call. -/
theorem operation_retry_ignores_refresh_result (env : Env) (n : Nat)
    (st : ApiState) (interface : String) (params : Option (List (String × JVal)))
    (method : String) (tok b1 b2 : JVal) (msg : String) (c2 : Nat)
    (h1 : st.access_token = some tok)
    (hrt : st.refresh_token = none)
    (h2 : env.http n = .httpError 401 msg b1)
    (h3 : jlookup b1 "details" = .ok (.jstr "Authentication failed"))
    (h5 : env.http (n + 1) = .success c2 b2) :
    (do_refresh_token env (n + 1) st).res =
      .ok ⟨false, 0, .jstr "refresh_token is empty.", none⟩ ∧
    operation env n st interface params method =
      ⟨.ok ⟨true, c2, b2, none⟩, st,
        [⟨(buildUrlData st interface params method).1, opHeaders st,
          (buildUrlData st interface params method).2, method⟩,
         ⟨(buildUrlData st interface params method).1, opHeaders st,
          (buildUrlData st interface params method).2, method⟩]⟩ := by
  constructor
  · simp [do_refresh_token, hrt]
  · simp only [operation, operationNR, ensureToken, h1, h2, h3, jeq,
      List.length_nil, Nat.add_zero, List.nil_append, List.append_nil]
    simp [do_refresh_token, hrt, h1, h5, beq_self_eq_true]

/-- Transport for the C10 witness: a recoverable 401, then a success. -/
def noRefreshEnv : Env :=
  ⟨fun k => match k with
    | 0 => .httpError 401 "Unauthorized"
        (.jobj [("details", .jstr "Authentication failed")])
    | _ => .success 200 (.jarr [])⟩

/-- A client state holding an access token but no refresh token. -/
def noRefreshState : ApiState := { sampleState with refresh_token := none }

/-- Witness for C10 on the concrete `noRefreshEnv` transport. -/
theorem operation_retry_ignores_refresh_result_witness :
    operation noRefreshEnv 0 noRefreshState "profiles" none "GET" =
      ⟨.ok ⟨true, 200, .jarr [], none⟩, noRefreshState,
        [⟨(buildUrlData noRefreshState "profiles" none "GET").1,
          opHeaders noRefreshState,
          (buildUrlData noRefreshState "profiles" none "GET").2, "GET"⟩,
         ⟨(buildUrlData noRefreshState "profiles" none "GET").1,
          opHeaders noRefreshState,
          (buildUrlData noRefreshState "profiles" none "GET").2, "GET"⟩]⟩ :=
  (operation_retry_ignores_refresh_result noRefreshEnv 0 noRefreshState
    "profiles" none "GET" (.jstr "atok")
    (.jobj [("details", .jstr "Authentication failed")]) (.jarr [])
    "Unauthorized" 200 rfl rfl rfl rfl rfl).2
